import Mathlib

/-!
Verification of the ollama_concurrency load tester (run.py and sweep.py).

Shallow embedding conventions:
- Latencies, durations and thresholds are rationals (Lean model of Python floats).
- Python strings (response bodies, exception text) are lists of characters, so
  that the Python slice s[:200] becomes List.take 200.
- The network is a parameter: each request gets a NetOutcome value describing
  what the HTTP layer returned (or which exception it raised), plus the
  wall-clock latency observed at the point where the code captures it.
- The Python sorted builtin is modelled by insertionSort (a stable sort of
  rationals; any correct sort agrees on List Rat).
-/

namespace OllamaConc

/-- Parsed JSON body of a generation response, as used by run.py lines 59 to 62:
only the optional total_duration counter (integer microseconds) and the optional
eval_count token counter are read. -/
structure RespJson where
  total_duration : Option Int
  eval_count : Option Int
deriving DecidableEq

/-- What the HTTP layer produced for one request: either a response with a
status code, a body text, and the result of resp.json() (Except carries the
repr text of the decode exception when the body is unparseable), or a
transport-level exception (descr is the repr text of the exception). -/
inductive NetOutcome where
  | response (status : Nat) (body : List Char) (json : Except (List Char) RespJson)
  | exc (descr : List Char)

/-- Value of the status field of a result entry: run.py stores either the
integer HTTP status code (line 54) or the string "exception" (line 69). -/
inductive Status where
  | code (n : Nat)
  | exception
deriving DecidableEq

/-- One entry appended to the shared results list by _one_request. Fields that
the code does not set for a given outcome stay at their default none. -/
structure ResultRecord where
  latency : Rat
  status : Status
  error : Option (List Char) := none
  total_duration : Option Rat := none
  tokens : Option Int := none
deriving DecidableEq

/-- Embedding of _one_request (run.py lines 41 to 72). The latency argument is
the elapsed time the code measures at its capture point (line 53, or line 66 in
the exception branch). On status 200 with a parseable body the entry gets
total_duration converted from microseconds to seconds and tokens from
eval_count; on any other status it gets the first 200 characters of the body as
error text; resp.json() raising on a 200 response falls into the except branch
(line 65), as does any transport failure, producing status "exception" with the
exception repr truncated to 200 characters. Exactly one record is returned in
every case. -/
def oneRequest (net : NetOutcome) (latency : Rat) : ResultRecord :=
  match net with
  | .response st body json =>
    if st = 200 then
      match json with
      | .ok data =>
        { latency := latency
          status := .code 200
          total_duration := data.total_duration.map (fun d => (d : Rat) / 1000000)
          tokens := data.eval_count }
      | .error excRepr =>
        { latency := latency
          status := .exception
          error := some (excRepr.take 200) }
    else
      { latency := latency
        status := .code st
        error := some (body.take 200) }
  | .exc descr =>
    { latency := latency
      status := .exception
      error := some (descr.take 200) }

/-- Model of the shared results list built by _run_batch (run.py lines 85 to
95): args.requests tasks are dispatched, each runs oneRequest once, and each
appends exactly one record; the completions argument lists, in completion
order, the network outcome and captured latency of each completed task, so the
collection is its image under oneRequest. -/
def runBatchResults (completions : List (NetOutcome × Rat)) : List ResultRecord :=
  completions.map (fun c => oneRequest c.1 c.2)

/-- Completion order of a batch of n dispatched tasks: asyncio.gather returns
only once every created task has finished, so the order in which the n tasks
reach their append is a permutation of the dispatch indices 0..n-1. Each index
is assigned its network behaviour by behav. -/
def completionsOf (behav : Nat → NetOutcome × Rat) (order : List Nat) :
    List (NetOutcome × Rat) :=
  order.map behav

/-- Model of the Python sorted builtin on a list of floats, used inside
statistics.median and statistics.quantiles: a stable ascending sort. -/
def pySorted (l : List Rat) : List Rat :=
  l.insertionSort (fun a b => a ≤ b)

/-- Embedding of statistics.median for a nonempty list: sort, then take the
middle element when the length is odd, or the mean of the two middle elements
when it is even. (The empty case raises in Python; run.py line 100 guards it.) -/
def pyMedian (data : List Rat) : Rat :=
  let s := pySorted data
  let n := s.length
  if n % 2 = 1 then s.getD (n / 2) 0
  else (s.getD (n / 2 - 1) 0 + s.getD (n / 2) 0) / 2

/-- Embedding of one interpolated cut point of statistics.quantiles with the
default exclusive method on an already sorted list s: for cut index i of n,
scale i by (length + 1), split into quotient j and remainder delta, clamp j to
the range 1..length-1, and interpolate between the neighbouring elements. -/
def quantileBoundary (s : List Rat) (n i : Nat) : Rat :=
  let ld := s.length
  let m := ld + 1
  let j0 := i * m / n
  let delta := i * m % n
  let j := if j0 < 1 then 1 else if ld - 1 < j0 then ld - 1 else j0
  (s.getD (j - 1) 0 * ((n : Rat) - (delta : Rat)) + s.getD j 0 * (delta : Rat)) / (n : Rat)

/-- Embedding of statistics.quantiles(data, n) with the default exclusive
method: the list of the n - 1 cut points over the sorted data. (Python raises
StatisticsError for fewer than two data points; run.py line 102 only calls this
with at least 100 points.) -/
def pyQuantiles (data : List Rat) (n : Nat) : List Rat :=
  let s := pySorted data
  (List.range (n - 1)).map (fun k => quantileBoundary s n (k + 1))

/-- Success-set latencies of a result collection (run.py line 99): the latency
of every record whose status is the integer 200. -/
def okLatencies (results : List ResultRecord) : List Rat :=
  (results.filter (fun r => decide (r.status = .code 200))).map ResultRecord.latency

/-- Embedding of run.py line 100: p50 is the median of the success-set
latencies, or absent when the success set is empty. -/
def p50Of (okLat : List Rat) : Option Rat :=
  if okLat = [] then none else some (pyMedian okLat)

/-- Embedding of run.py lines 101 to 103: p95 is cut point index 94 (the 95th
of 99) of the exclusive 100-quantiles of the success-set latencies, computed
only when at least 100 successes exist, otherwise absent. -/
def p95Of (okLat : List Rat) : Option Rat :=
  if 100 ≤ okLat.length then some ((pyQuantiles okLat 100).getD 94 0) else none

/-- Embedding of run.py line 104: error rate is one minus the fraction of
status-200 records, or 1.0 for an empty collection. -/
def errorRateOf (results : List ResultRecord) : Rat :=
  if results = [] then 1
  else 1 - ((okLatencies results).length : Rat) / (results.length : Rat)

/-- Embedding of run.py line 105: requests per second is the record count over
the elapsed duration, or 0 when the elapsed duration is not positive. -/
def rpsOf (results : List ResultRecord) (elapsed : Rat) : Rat :=
  if 0 < elapsed then (results.length : Rat) / elapsed else 0

/-- Statistics fields of the summary dict built by _run_batch (run.py lines 98
to 120), together with the echoed configuration fields that the sweep reads. -/
structure BatchSummary where
  concurrency : Int
  requests : Int
  p50_latency : Option Rat
  p95_latency : Option Rat
  rps : Rat
  error_rate : Rat
  total_time : Rat
deriving DecidableEq

/-- Embedding of the aggregation step of _run_batch: a pure function of the
result collection and the elapsed batch duration (plus echoed configuration). -/
def summarize (concurrency requests : Int) (results : List ResultRecord)
    (elapsed : Rat) : BatchSummary :=
  { concurrency := concurrency
    requests := requests
    p50_latency := p50Of (okLatencies results)
    p95_latency := p95Of (okLatencies results)
    rps := rpsOf results elapsed
    error_rate := errorRateOf results
    total_time := elapsed }

/-- Concrete all-success collection used by concrete instantiations below: 100
records with status 200 and latency 1. -/
def allOkHundred : List ResultRecord :=
  List.replicate 100 { latency := 1, status := .code 200 }

/-- Embedding of the per-level OK check of _sweep (sweep.py lines 67 to 71): a
level is OK iff its p95 is present, the p95 is strictly below the latency
threshold, and the error rate is strictly below the error threshold. -/
def levelOk (s : BatchSummary) (latThr errThr : Rat) : Bool :=
  match s.p95_latency with
  | none => false
  | some v => decide (v < latThr) && decide (s.error_rate < errThr)

/-- Embedding of the loop of _sweep (sweep.py lines 53 to 74): for each
concurrency level in list order, run one batch (bench gives the summary of the
batch at that level), append the summary to the records, and set the trouble
level to the current level if the summary is not OK and no trouble level has
been recorded yet. The accumulator carries the trouble level and the records. -/
def sweepLoop (bench : Int → BatchSummary) (latThr errThr : Rat) :
    List Int → Option Int × List BatchSummary → Option Int × List BatchSummary
  | [], acc => acc
  | conc :: rest, acc =>
    let summary := bench conc
    let records := acc.2 ++ [summary]
    let trouble :=
      if levelOk summary latThr errThr = false ∧ acc.1 = none then some conc else acc.1
    sweepLoop bench latThr errThr rest (trouble, records)

/-- Embedding of _sweep (sweep.py lines 49 to 75): run the loop over the whole
level list starting with no trouble level and no records, and return the
trouble level together with the per-level summaries. -/
def sweep (levels : List Int) (latThr errThr : Rat) (bench : Int → BatchSummary) :
    Option Int × List BatchSummary :=
  sweepLoop bench latThr errThr levels (none, [])

/-- Events of one executor invocation, named after the statements of
_one_request: the latency clock starts at line 49, the admission gate is
acquired by the async-with at line 50, the POST is awaited at line 52, the
latency is captured at line 53 (or line 66 on failure), the entry is appended
at line 72, and the gate is released when the async-with block exits. -/
inductive ExecEvent where
  | clockStart
  | gateAcquire
  | post
  | latencyCapture
  | appendEntry
  | gateRelease
deriving DecidableEq, BEq

/-- Order in which the statements of _one_request execute (run.py lines 49 to
72): the clock read that starts the latency measurement comes first, strictly
before the admission gate is acquired and hence before the network call. -/
def oneRequestEventOrder : List ExecEvent :=
  [.clockStart, .gateAcquire, .post, .latencyCapture, .appendEntry, .gateRelease]

/-- Latency computed by _one_request: the clock reading at the capture point
(line 53 or 66) minus the clock reading taken at line 49, before the gate. -/
def measuredLatency (tClockStart tCapture : Rat) : Rat :=
  tCapture - tClockStart

/-- Configuration slice of _run_batch: the two integer fields the batch runner
itself consumes (run.py lines 85 and 91). -/
structure RunConfig where
  concurrency : Int
  requests : Int

/-- Possible fates of one _run_batch invocation, including the failure modes
of the admission-gate construction: asyncio.Semaphore raises ValueError for a
negative initial value, and a zero-capacity semaphore is never granted, so
when at least one task is dispatched asyncio.gather never returns. -/
inductive BatchFate where
  | raisesValueError
  | neverCompletes
  | done (summary : BatchSummary) (results : List ResultRecord)

/-- Embedding of the control flow of _run_batch (run.py lines 85 to 121):
construct the semaphore (ValueError for a negative concurrency), dispatch
range(requests) tasks (no task for a non-positive count), wait for all of them
(which never happens when a dispatched task waits on a zero-capacity gate),
then aggregate. completions lists the completed outcomes in completion order;
for a non-positive request count it is the empty list. -/
def runBatchFull (cfg : RunConfig) (completions : List (NetOutcome × Rat))
    (elapsed : Rat) : BatchFate :=
  if cfg.concurrency < 0 then .raisesValueError
  else if cfg.concurrency = 0 ∧ 0 < cfg.requests then .neverCompletes
  else
    .done (summarize cfg.concurrency cfg.requests (runBatchResults completions) elapsed)
      (runBatchResults completions)

end OllamaConc

namespace OllamaConc

/-- Claim C2: the request executor is a total function producing exactly one
ResultRecord for every possible network outcome: a non-200 HTTP status yields
the http-error shape (integer status code stored, error text equal to the first
200 characters of the response body, hence at most 200 characters); a transport
exception, and likewise a 200 response whose body fails to parse, yield the
exception shape with a diagnostic of at most 200 characters. No input makes the
executor propagate an error: every case is covered by one of the three record
shapes. -/
theorem one_request_never_propagates_and_classifies (latency : Rat) :
    (∀ st body json, st ≠ 200 →
      oneRequest (.response st body json) latency =
        { latency := latency, status := .code st, error := some (body.take 200) } ∧
      (body.take 200).length ≤ 200) ∧
    (∀ descr,
      oneRequest (.exc descr) latency =
        { latency := latency, status := .exception, error := some (descr.take 200) } ∧
      (descr.take 200).length ≤ 200) ∧
    (∀ body excRepr,
      oneRequest (.response 200 body (.error excRepr)) latency =
        { latency := latency, status := .exception, error := some (excRepr.take 200) } ∧
      (excRepr.take 200).length ≤ 200) ∧
    (∀ body data,
      oneRequest (.response 200 body (.ok data)) latency =
        { latency := latency
          status := .code 200
          total_duration := data.total_duration.map (fun d => (d : Rat) / 1000000)
          tokens := data.eval_count }) := by
  refine ⟨?_, ?_, ?_, ?_⟩
  · intro st body json hst
    constructor
    · simp [oneRequest, hst]
    · simp
  · intro descr
    exact ⟨rfl, by simp⟩
  · intro body excRepr
    exact ⟨rfl, by simp⟩
  · intro body data
    rfl

/-- Witness for C2 at concrete inputs: a 404 response with body "ab", a
transport exception, and a 200 response with unparseable body. -/
theorem one_request_never_propagates_and_classifies_witness :
    (404 : Nat) ≠ 200 ∧
    oneRequest (.response 404 ['a', 'b'] (.ok ⟨none, none⟩)) 1 =
      { latency := 1, status := .code 404, error := some ['a', 'b'] } := by
  refine ⟨by decide, ?_⟩
  have h := (one_request_never_propagates_and_classifies 1).1
    404 ['a', 'b'] (.ok ⟨none, none⟩) (by decide)
  simpa using h.1

/-- Claim C7: on an HTTP 200 response with parseable body the record has the
success status; a total_duration counter present in the body is stored divided
by 1000000 (microseconds to seconds, so 2000000 becomes 2), an absent counter
leaves the field absent; the tokens field is exactly the optional eval_count of
the body, absent when the server omits it. -/
theorem success_response_fields (body : List Char) (data : RespJson) (latency : Rat) :
    (oneRequest (.response 200 body (.ok data)) latency).status = .code 200 ∧
    (oneRequest (.response 200 body (.ok data)) latency).total_duration =
      data.total_duration.map (fun d => (d : Rat) / 1000000) ∧
    (data.total_duration = some 2000000 →
      (oneRequest (.response 200 body (.ok data)) latency).total_duration = some 2) ∧
    (data.total_duration = none →
      (oneRequest (.response 200 body (.ok data)) latency).total_duration = none) ∧
    (oneRequest (.response 200 body (.ok data)) latency).tokens = data.eval_count ∧
    (data.eval_count = none →
      (oneRequest (.response 200 body (.ok data)) latency).tokens = none) := by
  refine ⟨rfl, rfl, ?_, ?_, rfl, ?_⟩
  · intro h
    simp [oneRequest, h]
    norm_num
  · intro h
    simp [oneRequest, h]
  · intro h
    simp [oneRequest, h]

/-- Witness for C7: a mocked 200 response carrying total_duration 2000000 and
eval_count 50 yields a success record with duration 2 seconds and 50 tokens. -/
theorem success_response_fields_witness :
    RespJson.total_duration ⟨some 2000000, some 50⟩ = some 2000000 ∧
    (oneRequest (.response 200 [] (.ok ⟨some 2000000, some 50⟩)) 1).total_duration = some 2 ∧
    (oneRequest (.response 200 [] (.ok ⟨some 2000000, some 50⟩)) 1).tokens = some 50 := by
  have h := success_response_fields [] ⟨some 2000000, some 50⟩ 1
  exact ⟨rfl, h.2.2.1 rfl, h.2.2.2.2.1⟩

/-- Claim C1: a batch that dispatches n executor invocations produces exactly n
result records, one per dispatched request, whatever the individual outcomes
and whatever order the tasks complete in: for any completion order that is a
permutation of the dispatch indices (the asyncio.gather guarantee), the results
collection has length n. -/
theorem batch_record_count (n : Nat) (behav : Nat → NetOutcome × Rat)
    (order : List Nat) (h : order.Perm (List.range n)) :
    (runBatchResults (completionsOf behav order)).length = n := by
  simp [runBatchResults, completionsOf, h.length_eq]

/-- Witness for C1: two dispatched requests completing in reversed order yield
exactly two records. -/
theorem batch_record_count_witness :
    (List.Perm [1, 0] (List.range 2)) ∧
    (runBatchResults (completionsOf (fun _ => (.exc [], 1)) [1, 0])).length = 2 := by
  have hp : List.Perm [1, 0] (List.range 2) := by decide
  exact ⟨hp, batch_record_count 2 (fun _ => (.exc [], 1)) [1, 0] hp⟩

/-- Helper: the success set is never larger than the whole collection. -/
theorem okLatencies_length_le (results : List ResultRecord) :
    (okLatencies results).length ≤ results.length := by
  simpa [okLatencies] using
    List.length_filter_le (fun r => decide (r.status = .code 200)) results

/-- Claim C5: the error rate of a nonempty collection equals one minus the
success fraction; it equals 1 on the empty collection and on any collection
with no status-200 record; and it always lies in the closed interval from 0 to
1. -/
theorem error_rate_formula_and_bounds (results : List ResultRecord) :
    (results ≠ [] →
      errorRateOf results =
        1 - ((okLatencies results).length : Rat) / (results.length : Rat)) ∧
    errorRateOf [] = 1 ∧
    ((∀ r ∈ results, r.status ≠ .code 200) → errorRateOf results = 1) ∧
    0 ≤ errorRateOf results ∧ errorRateOf results ≤ 1 := by
  refine ⟨fun h => by simp [errorRateOf, h], rfl, ?_, ?_, ?_⟩
  · intro hall
    have hfil : results.filter (fun r => decide (r.status = .code 200)) = [] := by
      simp [List.filter_eq_nil_iff]
      intro r hr
      exact hall r hr
    rcases eq_or_ne results [] with h | h
    · simp [errorRateOf, h]
    · simp [errorRateOf, h, okLatencies, hfil]
  · rcases eq_or_ne results [] with h | h
    · simp [errorRateOf, h]
    · have hn : (0 : Rat) < (results.length : Rat) := by
        have : 0 < results.length := List.length_pos.mpr h
        exact_mod_cast this
      have hle : ((okLatencies results).length : Rat) / (results.length : Rat) ≤ 1 := by
        rw [div_le_one hn]
        exact_mod_cast okLatencies_length_le results
      simp only [errorRateOf, if_neg h]
      linarith
  · rcases eq_or_ne results [] with h | h
    · simp [errorRateOf, h]
    · have hn : (0 : Rat) < (results.length : Rat) := by
        have : 0 < results.length := List.length_pos.mpr h
        exact_mod_cast this
      have hge : (0 : Rat) ≤ ((okLatencies results).length : Rat) / (results.length : Rat) :=
        div_nonneg (by positivity) (le_of_lt hn)
      simp only [errorRateOf, if_neg h]
      linarith

/-- Witness for C5: one failed record gives error rate 1, within bounds. -/
theorem error_rate_formula_and_bounds_witness :
    ([({ latency := 1, status := .exception } : ResultRecord)] ≠ []) ∧
    errorRateOf [{ latency := 1, status := .exception }] = 1 := by
  have h := error_rate_formula_and_bounds [{ latency := 1, status := .exception }]
  refine ⟨by simp, ?_⟩
  have h1 := h.1 (by simp)
  simpa [okLatencies] using h1

/-- Helper: the success-set latencies of permuted collections are permuted. -/
theorem okLatencies_perm (r1 r2 : List ResultRecord) (h : r1.Perm r2) :
    (okLatencies r1).Perm (okLatencies r2) := by
  unfold okLatencies
  exact (h.filter _).map _

/-- Helper: sorting is invariant under permutation of the input. -/
theorem pySorted_perm_eq (l1 l2 : List Rat) (h : l1.Perm l2) :
    pySorted l1 = pySorted l2 :=
  List.eq_of_perm_of_sorted
    ((List.perm_insertionSort _ l1).trans (h.trans (List.perm_insertionSort _ l2).symm))
    (List.sorted_insertionSort _ l1) (List.sorted_insertionSort _ l2)

/-- Claim C6: the statistics aggregation is a pure function of the result
collection and the elapsed duration: permuting the collection leaves every
summary field unchanged (the aggregation is order-independent), and
recomputing on the same collection yields the identical summary (idempotence;
mutation of the input cannot be expressed against these pure definitions). -/
theorem summarize_pure (c r : Int) (elapsed : Rat) (r1 r2 : List ResultRecord)
    (hperm : r1.Perm r2) :
    summarize c r r1 elapsed = summarize c r r2 elapsed ∧
    summarize c r r1 elapsed = summarize c r r1 elapsed := by
  refine ⟨?_, rfl⟩
  have hok := okLatencies_perm r1 r2 hperm
  have hs := pySorted_perm_eq _ _ hok
  have hlen := hok.length_eq
  have hrlen := hperm.length_eq
  have hnil : (r1 = []) ↔ (r2 = []) := by
    rw [← List.length_eq_zero, ← List.length_eq_zero, hrlen]
  have hoknil : (okLatencies r1 = []) ↔ (okLatencies r2 = []) := by
    rw [← List.length_eq_zero, ← List.length_eq_zero, hlen]
  have hmed : pyMedian (okLatencies r1) = pyMedian (okLatencies r2) := by
    simp only [pyMedian, hs]
  have hq : pyQuantiles (okLatencies r1) 100 = pyQuantiles (okLatencies r2) 100 := by
    simp only [pyQuantiles, hs]
  simp [summarize, p50Of, p95Of, errorRateOf, rpsOf, hmed, hq, hlen, hrlen, hnil, hoknil]

/-- Witness for C6: two permuted two-record collections get identical
summaries. -/
theorem summarize_pure_witness :
    (List.Perm
      [({ latency := 1, status := .code 200 } : ResultRecord),
       { latency := 2, status := .exception }]
      [({ latency := 2, status := .exception } : ResultRecord),
       { latency := 1, status := .code 200 }]) ∧
    summarize 1 2
        [{ latency := 1, status := .code 200 }, { latency := 2, status := .exception }] 1 =
      summarize 1 2
        [{ latency := 2, status := .exception }, { latency := 1, status := .code 200 }] 1 := by
  have hp : List.Perm
      [({ latency := 1, status := .code 200 } : ResultRecord),
       { latency := 2, status := .exception }]
      [({ latency := 2, status := .exception } : ResultRecord),
       { latency := 1, status := .code 200 }] := List.Perm.swap _ _ _
  exact ⟨hp, (summarize_pure 1 2 1 _ _ hp).1⟩

/-- Helper: reading an in-range index with a default is plain indexing. -/
theorem getD_eq_get_of_lt (l : List Rat) (i : Nat) (h : i < l.length) :
    l.getD i 0 = l.get ⟨i, h⟩ := by
  simp [List.getD_eq_getElem?_getD, List.getElem?_eq_getElem h]

/-- Helper: indexing the image of List.range. -/
theorem getD_map_range (f : Nat → Rat) (n k : Nat) (h : k < n) :
    ((List.range n).map f).getD k 0 = f k := by
  rw [List.getD_eq_getElem?_getD, List.getElem?_map, List.getElem?_range h]
  rfl

/-- Helper: the element run.py reads from statistics.quantiles is cut point 95
of 100 over the sorted data. -/
theorem pyQuantiles_100_getD_94 (data : List Rat) :
    (pyQuantiles data 100).getD 94 0 = quantileBoundary (pySorted data) 100 95 := by
  simp only [pyQuantiles]
  rw [getD_map_range _ (100 - 1) 94 (by norm_num)]

/-- Helper: sorting preserves length. -/
theorem pySorted_length (l : List Rat) : (pySorted l).length = l.length :=
  (List.perm_insertionSort _ l).length_eq

/-- Helper: entries of an ascending-sorted list are monotone in the index. -/
theorem sorted_getD_mono (s : List Rat) (hs : List.Sorted (fun a b : Rat => a ≤ b) s)
    (i j : Nat) (hij : i ≤ j) (hj : j < s.length) :
    s.getD i 0 ≤ s.getD j 0 := by
  have hi : i < s.length := Nat.lt_of_le_of_lt hij hj
  rw [getD_eq_get_of_lt _ _ hi, getD_eq_get_of_lt _ _ hj]
  exact hs.rel_get_of_le (a := ⟨i, hi⟩) (b := ⟨j, hj⟩) hij

/-- Helper: with at least 100 data points the clamp inside the 95th cut point
of the exclusive 100-quantiles is inactive, leaving the plain rank-based
interpolation between the two neighbouring order statistics. -/
theorem quantileBoundary_95_unclamped (s : List Rat) (h : 100 ≤ s.length) :
    quantileBoundary s 100 95 =
      (s.getD (95 * (s.length + 1) / 100 - 1) 0 *
          ((100 : Rat) - ((95 * (s.length + 1) % 100 : Nat) : Rat)) +
        s.getD (95 * (s.length + 1) / 100) 0 *
          ((95 * (s.length + 1) % 100 : Nat) : Rat)) / 100 := by
  have h1 : ¬ (95 * (s.length + 1) / 100 < 1) := by omega
  have h2 : ¬ (s.length - 1 < 95 * (s.length + 1) / 100) := by omega
  simp only [quantileBoundary, if_neg h1, if_neg h2]
  norm_num

/-- Helper: on an ascending-sorted list of at least 100 elements, the Python
median expression is bounded by the 95th cut point of the 100-quantiles. -/
theorem median_le_boundary_core (s : List Rat)
    (hsorted : List.Sorted (fun a b : Rat => a ≤ b) s) (h : 100 ≤ s.length) :
    (if s.length % 2 = 1 then s.getD (s.length / 2) 0
     else (s.getD (s.length / 2 - 1) 0 + s.getD (s.length / 2) 0) / 2) ≤
      quantileBoundary s 100 95 := by
  have h4 : 95 * (s.length + 1) / 100 < s.length := by omega
  have h3 : s.length / 2 ≤ 95 * (s.length + 1) / 100 - 1 := by omega
  have h5 : 95 * (s.length + 1) % 100 < 100 := by omega
  have hmid : s.length / 2 < s.length := by omega
  have hstep1 : (if s.length % 2 = 1 then s.getD (s.length / 2) 0
      else (s.getD (s.length / 2 - 1) 0 + s.getD (s.length / 2) 0) / 2) ≤
      s.getD (s.length / 2) 0 := by
    split
    · exact le_refl _
    · have := sorted_getD_mono s hsorted (s.length / 2 - 1) (s.length / 2) (by omega) hmid
      linarith
  have hstep2 : s.getD (s.length / 2) 0 ≤ s.getD (95 * (s.length + 1) / 100 - 1) 0 :=
    sorted_getD_mono s hsorted _ _ h3 (by omega)
  have hab : s.getD (95 * (s.length + 1) / 100 - 1) 0 ≤
      s.getD (95 * (s.length + 1) / 100) 0 :=
    sorted_getD_mono s hsorted _ _ (by omega) h4
  have hd0 : (0 : Rat) ≤ ((95 * (s.length + 1) % 100 : Nat) : Rat) := by positivity
  have hd1 : ((95 * (s.length + 1) % 100 : Nat) : Rat) ≤ 100 := by
    exact_mod_cast le_of_lt h5
  rw [quantileBoundary_95_unclamped s h, le_div_iff₀ (by norm_num : (0 : Rat) < 100)]
  nlinarith [mul_nonneg (sub_nonneg.mpr hab) hd0]

/-- Helper: the p95 value read at run.py line 102 dominates the median when at
least 100 successes exist. -/
theorem median_le_p95_aux (okLat : List Rat) (h : 100 ≤ okLat.length) :
    pyMedian okLat ≤ (pyQuantiles okLat 100).getD 94 0 := by
  rw [pyQuantiles_100_getD_94]
  have hlen : (pySorted okLat).length = okLat.length := pySorted_length okLat
  have hcore := median_le_boundary_core (pySorted okLat)
    (List.sorted_insertionSort _ okLat) (by omega)
  simpa [pyMedian] using hcore

/-- Claim C4: the p95 field of a batch summary is present exactly when the
success set has at least 100 members; when present it is the 95th cut point of
the exclusive rank-based 100-quantiles of the sorted success-set latencies
(and with at least 100 points that cut point is the plain unclamped
interpolation between the order statistics around rank 95(n+1)/100); and
whenever both p50 and p95 are present, p50 is at most p95. -/
theorem p95_presence_boundary_and_p50_le (c r : Int) (results : List ResultRecord)
    (elapsed : Rat) :
    ((summarize c r results elapsed).p95_latency.isSome ↔
      100 ≤ (okLatencies results).length) ∧
    (100 ≤ (okLatencies results).length →
      (summarize c r results elapsed).p95_latency =
        some (quantileBoundary (pySorted (okLatencies results)) 100 95)) ∧
    (∀ s : List Rat, 100 ≤ s.length →
      quantileBoundary s 100 95 =
        (s.getD (95 * (s.length + 1) / 100 - 1) 0 *
            ((100 : Rat) - ((95 * (s.length + 1) % 100 : Nat) : Rat)) +
          s.getD (95 * (s.length + 1) / 100) 0 *
            ((95 * (s.length + 1) % 100 : Nat) : Rat)) / 100) ∧
    (∀ v50 v95, (summarize c r results elapsed).p50_latency = some v50 →
      (summarize c r results elapsed).p95_latency = some v95 → v50 ≤ v95) := by
  refine ⟨?_, ?_, fun s hs => quantileBoundary_95_unclamped s hs, ?_⟩
  · by_cases h : 100 ≤ (okLatencies results).length <;> simp [summarize, p95Of, h]
  · intro h
    show p95Of (okLatencies results) = _
    rw [p95Of, if_pos h, pyQuantiles_100_getD_94]
  · intro v50 v95 h50 h95
    by_cases h : 100 ≤ (okLatencies results).length
    · have hne : okLatencies results ≠ [] := by
        intro hnil
        rw [hnil] at h
        simp at h
      have hv95 : (pyQuantiles (okLatencies results) 100).getD 94 0 = v95 := by
        simpa [summarize, p95Of, h] using h95
      have hv50 : pyMedian (okLatencies results) = v50 := by
        simpa [summarize, p50Of, hne] using h50
      rw [← hv95, ← hv50]
      exact median_le_p95_aux _ h
    · exfalso
      rw [show (summarize c r results elapsed).p95_latency =
        p95Of (okLatencies results) from rfl, p95Of, if_neg h] at h95
      exact Option.noConfusion h95

/-- Witness for C4: 100 successful records of latency 1 form a success set of
size 100, p95 is present and equals the 95th rank-based cut point of the sorted
latencies, and the median is at most that cut point. -/
theorem p95_presence_boundary_and_p50_le_witness :
    100 ≤ (okLatencies allOkHundred).length ∧
    (summarize 10 100 allOkHundred 1).p95_latency =
      some (quantileBoundary (pySorted (okLatencies allOkHundred)) 100 95) ∧
    pyMedian (okLatencies allOkHundred) ≤
      quantileBoundary (pySorted (okLatencies allOkHundred)) 100 95 := by
  have h := p95_presence_boundary_and_p50_le 10 100 allOkHundred 1
  have hlen : 100 ≤ (okLatencies allOkHundred).length := by decide
  have h95 := h.2.1 hlen
  have h50 : (summarize 10 100 allOkHundred 1).p50_latency =
      some (pyMedian (okLatencies allOkHundred)) := by
    have hne : okLatencies allOkHundred ≠ [] := by decide
    show p50Of (okLatencies allOkHundred) = _
    rw [p50Of, if_neg hne]
  exact ⟨hlen, h95, h.2.2.2 _ _ h50 h95⟩

/-- Helper: the records accumulated by the sweep loop are the starting records
followed by one summary per remaining level, in list order. -/
theorem sweepLoop_records (bench : Int → BatchSummary) (latThr errThr : Rat)
    (levels : List Int) (t : Option Int) (recs : List BatchSummary) :
    (sweepLoop bench latThr errThr levels (t, recs)).2 = recs ++ levels.map bench := by
  induction levels generalizing t recs with
  | nil => simp [sweepLoop]
  | cons c rest ih => simp [sweepLoop, ih]

/-- Helper: once a trouble level is recorded the sweep loop never changes it. -/
theorem sweepLoop_trouble_some (bench : Int → BatchSummary) (latThr errThr : Rat)
    (levels : List Int) (c0 : Int) (recs : List BatchSummary) :
    (sweepLoop bench latThr errThr levels (some c0, recs)).1 = some c0 := by
  induction levels generalizing recs with
  | nil => rfl
  | cons c rest ih => simp [sweepLoop, ih]

/-- Helper: starting with no trouble level, the sweep loop reports the first
level in list order whose summary is not OK. -/
theorem sweepLoop_trouble_none (bench : Int → BatchSummary) (latThr errThr : Rat)
    (levels : List Int) (recs : List BatchSummary) :
    (sweepLoop bench latThr errThr levels (none, recs)).1 =
      levels.find? (fun c => !(levelOk (bench c) latThr errThr)) := by
  induction levels generalizing recs with
  | nil => rfl
  | cons c rest ih =>
    by_cases h : levelOk (bench c) latThr errThr
    · rw [List.find?_cons_of_neg _ (by simp [h])]
      simp only [sweepLoop, h]
      simpa using ih _
    · rw [List.find?_cons_of_pos _ (by simp [h])]
      have hf : levelOk (bench c) latThr errThr = false := by
        simpa using h
      simp only [sweepLoop, hf]
      simpa using sweepLoop_trouble_some bench latThr errThr rest c _

/-- Claim C3: for every level list and every pair of thresholds, the sweep
produces one summary per level in list order and never stops early; the
reported trouble level is the first level in list order whose summary fails
the OK predicate, and it is none exactly when every level passes; and the OK
predicate holds iff p95 is present, below the latency threshold, and the error
rate is below the error threshold, so a summary with absent p95 is never OK. -/
theorem sweep_full_profile_and_first_violation
    (levels : List Int) (latThr errThr : Rat) (bench : Int → BatchSummary) :
    (sweep levels latThr errThr bench).2 = levels.map bench ∧
    (sweep levels latThr errThr bench).1 =
      levels.find? (fun c => !(levelOk (bench c) latThr errThr)) ∧
    ((∀ c ∈ levels, levelOk (bench c) latThr errThr = true) →
      (sweep levels latThr errThr bench).1 = none) ∧
    (∀ s lt et, (levelOk s lt et = true ↔
      ∃ v, s.p95_latency = some v ∧ v < lt ∧ s.error_rate < et)) := by
  refine ⟨by simpa using sweepLoop_records bench latThr errThr levels none [],
    sweepLoop_trouble_none bench latThr errThr levels [], ?_, ?_⟩
  · intro hall
    rw [sweep, sweepLoop_trouble_none]
    rw [List.find?_eq_none]
    intro c hc
    simp [hall c hc]
  · intro s lt et
    cases hp : s.p95_latency with
    | none => simp [levelOk, hp]
    | some v =>
      simp only [levelOk, hp, Bool.and_eq_true, decide_eq_true_eq]
      constructor
      · rintro ⟨h1, h2⟩
        exact ⟨v, rfl, h1, h2⟩
      · rintro ⟨w, hw, h1, h2⟩
        cases hw
        exact ⟨h1, h2⟩

/-- Witness for C3: levels 1, 2, 4 where only level 2 fails the predicate (its
p95 is absent): the sweep reports trouble level 2 and still produces all three
summaries in order. -/
theorem sweep_full_profile_and_first_violation_witness :
    (sweep [1, 2, 4] 30 1 (fun c =>
      if c = 2 then
        { concurrency := c, requests := 50, p50_latency := none, p95_latency := none,
          rps := 1, error_rate := 1, total_time := 1 }
      else
        { concurrency := c, requests := 50, p50_latency := some 1, p95_latency := some 1,
          rps := 1, error_rate := 0, total_time := 1 })).1 = some 2 ∧
    (sweep [1, 2, 4] 30 1 (fun c =>
      if c = 2 then
        { concurrency := c, requests := 50, p50_latency := none, p95_latency := none,
          rps := 1, error_rate := 1, total_time := 1 }
      else
        { concurrency := c, requests := 50, p50_latency := some 1, p95_latency := some 1,
          rps := 1, error_rate := 0, total_time := 1 })).2.length = 3 := by
  have h := sweep_full_profile_and_first_violation [1, 2, 4] 30 1 (fun c =>
    if c = 2 then
      { concurrency := c, requests := 50, p50_latency := none, p95_latency := none,
        rps := 1, error_rate := 1, total_time := 1 }
    else
      { concurrency := c, requests := 50, p50_latency := some 1, p95_latency := some 1,
        rps := 1, error_rate := 0, total_time := 1 })
  refine ⟨?_, ?_⟩
  · rw [h.2.1]
    decide
  · rw [h.1]
    decide

/-- Claim C8: in the executor the statement that reads the clock for the start
of the latency measurement executes strictly before the statement that
acquires the admission gate, which executes strictly before the network call;
consequently, for any monotone event times, the measured latency decomposes as
the gate-wait time plus the post-acquisition time, so the full wait for a gate
slot is contained in the reported latency. -/
theorem latency_includes_gate_wait (tStart tAcquire tCapture : Rat)
    (h1 : tStart ≤ tAcquire) (h2 : tAcquire ≤ tCapture) :
    oneRequestEventOrder.indexOf .clockStart <
      oneRequestEventOrder.indexOf .gateAcquire ∧
    oneRequestEventOrder.indexOf .gateAcquire <
      oneRequestEventOrder.indexOf .post ∧
    oneRequestEventOrder.indexOf .post ≤
      oneRequestEventOrder.indexOf .latencyCapture ∧
    measuredLatency tStart tCapture = (tAcquire - tStart) + (tCapture - tAcquire) ∧
    tAcquire - tStart ≤ measuredLatency tStart tCapture := by
  refine ⟨by decide, by decide, by decide, ?_, ?_⟩
  · rw [measuredLatency]
    ring
  · rw [measuredLatency]
    linarith [h1, h2]

/-- Witness for C8: with clock start at time 0, gate grant at time 1 and
capture at time 3, the gate wait of one time unit is at most the measured
latency. -/
theorem latency_includes_gate_wait_witness :
    ((0 : Rat) ≤ 1 ∧ (1 : Rat) ≤ 3) ∧
    (1 : Rat) - 0 ≤ measuredLatency 0 3 := by
  refine ⟨⟨by decide, by decide⟩, ?_⟩
  exact (latency_includes_gate_wait 0 1 3 (by decide) (by decide)).2.2.2.2

/-- Counterexample to C9 as stated: a request count of 0 is non-positive, yet
the batch runner neither raises nor refuses to start: it dispatches nothing,
runs to completion, and returns a normal summary (with error rate 1), so no
error is surfaced. -/
theorem run_batch_no_fail_fast_counterexample :
    runBatchFull { concurrency := 5, requests := 0 } [] 1 =
      .done (summarize 5 0 [] 1) [] ∧
    runBatchFull { concurrency := 5, requests := 0 } [] 1 ≠
      BatchFate.raisesValueError ∧
    (summarize 5 0 [] 1).error_rate = 1 := by
  refine ⟨rfl, ?_, rfl⟩
  intro h
  exact BatchFate.noConfusion (by rw [← h]; rfl : BatchFate.raisesValueError =
    BatchFate.done (summarize 5 0 [] 1) [])

/-- Claim C9 as amended: the batch runner does not validate its configuration.
A negative concurrency does fail before any request is dispatched, but only
because the semaphore constructor raises ValueError; a zero concurrency with a
positive request count is accepted and the batch never completes (every task
blocks on the zero-capacity gate) instead of surfacing an error; and a
non-positive request count is silently accepted, producing an empty batch
whose summary has error rate 1. -/
theorem run_batch_invalid_config_behaviour (cfg : RunConfig)
    (completions : List (NetOutcome × Rat)) (elapsed : Rat) :
    (cfg.concurrency < 0 →
      runBatchFull cfg completions elapsed = .raisesValueError) ∧
    (cfg.concurrency = 0 → 0 < cfg.requests →
      runBatchFull cfg completions elapsed = .neverCompletes) ∧
    (0 ≤ cfg.concurrency → cfg.requests ≤ 0 →
      runBatchFull cfg [] elapsed =
        .done (summarize cfg.concurrency cfg.requests [] elapsed) [] ∧
      (summarize cfg.concurrency cfg.requests [] elapsed).error_rate = 1) := by
  refine ⟨?_, ?_, ?_⟩
  · intro h
    rw [runBatchFull, if_pos h]
  · intro h0 hr
    rw [runBatchFull, if_neg (by omega), if_pos ⟨h0, hr⟩]
  · intro h0 hr
    refine ⟨?_, rfl⟩
    rw [runBatchFull, if_neg (by omega), if_neg (by omega)]
    rfl

/-- Witness for C9 as amended: concurrency -1 raises, concurrency 0 with 10
requests never completes, and 3 concurrency with 0 requests completes with an
empty collection. -/
theorem run_batch_invalid_config_behaviour_witness :
    ((-1 : Int) < 0 ∧
      runBatchFull { concurrency := -1, requests := 10 } [] 1 =
        .raisesValueError) ∧
    ((0 : Int) = 0 ∧ (0 : Int) < 10 ∧
      runBatchFull { concurrency := 0, requests := 10 } [] 1 = .neverCompletes) ∧
    ((0 : Int) ≤ 3 ∧ (0 : Int) ≤ 0 ∧
      runBatchFull { concurrency := 3, requests := 0 } [] 1 =
        .done (summarize 3 0 [] 1) []) := by
  refine ⟨⟨by decide, ?_⟩, ⟨rfl, by decide, ?_⟩, ⟨by decide, by decide, ?_⟩⟩
  · exact (run_batch_invalid_config_behaviour { concurrency := -1, requests := 10 }
      [] 1).1 (by decide)
  · exact (run_batch_invalid_config_behaviour { concurrency := 0, requests := 10 }
      [] 1).2.1 rfl (by decide)
  · exact ((run_batch_invalid_config_behaviour { concurrency := 3, requests := 0 }
      [] 1).2.2 (by decide) (by decide)).1

/-- Claim C10: with the shipped sweep default of 50 requests per level
(sweep.py line 82), every batch returns exactly 50 records, so the success set
always has fewer than 100 members: p95 is absent at every level, every level
fails the OK predicate, and for a nonempty level list the sweep reports the
first level as the trouble point, whatever the server behaviour. -/
theorem sweep_default_requests_flags_first_level
    (firstLevel : Int) (rest : List Int) (latThr errThr : Rat)
    (behav : Int → List (NetOutcome × Rat)) (elapsedOf : Int → Rat)
    (hlen : ∀ c, (behav c).length = 50) :
    (∀ c, (summarize c 50 (runBatchResults (behav c)) (elapsedOf c)).p95_latency
      = none) ∧
    (∀ c, levelOk (summarize c 50 (runBatchResults (behav c)) (elapsedOf c))
      latThr errThr = false) ∧
    (sweep (firstLevel :: rest) latThr errThr
        (fun c => summarize c 50 (runBatchResults (behav c)) (elapsedOf c))).1 =
      some firstLevel := by
  have hp95 : ∀ c,
      (summarize c 50 (runBatchResults (behav c)) (elapsedOf c)).p95_latency = none := by
    intro c
    have h1 := okLatencies_length_le (runBatchResults (behav c))
    have h2 : (runBatchResults (behav c)).length = 50 := by
      simp [runBatchResults, hlen c]
    show p95Of _ = none
    rw [p95Of, if_neg (by omega)]
  have hok : ∀ c,
      levelOk (summarize c 50 (runBatchResults (behav c)) (elapsedOf c))
        latThr errThr = false := by
    intro c
    simp [levelOk, hp95 c]
  refine ⟨hp95, hok, ?_⟩
  rw [sweep]
  simp only [sweepLoop, hok firstLevel]
  simpa using sweepLoop_trouble_some _ latThr errThr rest firstLevel _

/-- Witness for C10: two levels whose 50 requests all fail with a transport
exception; the sweep flags the first level. -/
theorem sweep_default_requests_flags_first_level_witness :
    (List.replicate 50 ((NetOutcome.exc [] : NetOutcome), (1 : Rat))).length = 50 ∧
    (sweep [1, 2] 30 1 (fun c =>
      summarize c 50
        (runBatchResults (List.replicate 50 ((NetOutcome.exc [] : NetOutcome), (1 : Rat))))
        1)).1 = some 1 := by
  refine ⟨by simp, ?_⟩
  exact (sweep_default_requests_flags_first_level 1 [2] 30 1
    (fun _ => List.replicate 50 ((NetOutcome.exc [] : NetOutcome), (1 : Rat)))
    (fun _ => 1) (fun _ => by simp)).2.2

end OllamaConc
